import Mathlib

/-
Verification of the DC-Gold-Finance valuation and risk-scoring core.

The Python source is shallowly embedded over ℚ (for exact arithmetic) and ℝ
(only where the source takes real powers).  Machine floats are modelled as
exact rationals; `datetime.now().year` (the calculator's `self.current_year`)
is threaded through as an explicit `current_year : ℤ` parameter, matching the
spec's observation that NPV depends on the wall-clock reference year.
-/

/-- Failure modes of the embedded calculations.  `keyErrorYear` models the
pandas `KeyError` raised in `calculate_project_npv` when the cash-flow
DataFrame is empty (mine life not positive) and the code indexes the missing
column at `df['year'] - self.current_year`. -/
inductive CalcError where
  | keyErrorYear
deriving Repr, DecidableEq

/-- One row of the yearly cash-flow schedule built by
`NPVCalculator.calculate_project_npv` (src/scenario_engine/npv_calculator.py,
loop at lines 54-77 plus the vectorised columns added at lines 83-85). -/
structure CashFlowRow where
  year : ℤ
  revenue : ℚ
  operating_cost : ℚ
  gross_profit : ℚ
  tax_expense : ℚ
  free_cash_flow : ℚ
  years_from_now : ℤ
  discount_factor : ℚ
  present_value : ℚ
deriving Repr, DecidableEq

/-- Production years `range(start_year, start_year + mine_life_years)`
(npv_calculator.py line 51).  Empty when `mine_life_years <= 0`. -/
def projectYears (start_year mine_life_years : ℤ) : List ℤ :=
  (List.range mine_life_years.toNat).map (fun i : ℕ => start_year + (i : ℤ))

/-- One operating-year row of the schedule: the per-year body of the loop in
`calculate_project_npv` (lines 54-77) together with the discount columns the
code adds vectorised afterwards (lines 83-85). -/
def operatingRow (gold_price annual_production_oz aisc_per_oz tax discount_rate : ℚ)
    (current_year year : ℤ) : CashFlowRow :=
  let revenue := annual_production_oz * gold_price
  let operating_cost := annual_production_oz * aisc_per_oz
  let gross_profit := revenue - operating_cost
  let tax_expense := max 0 (gross_profit * tax)
  let fcf := gross_profit - tax_expense
  let years_from_now := year - current_year
  let discount_factor := (1 + discount_rate) ^ (-years_from_now)
  { year := year
    revenue := revenue
    operating_cost := operating_cost
    gross_profit := gross_profit
    tax_expense := tax_expense
    free_cash_flow := fcf
    years_from_now := years_from_now
    discount_factor := discount_factor
    present_value := fcf * discount_factor }

/-- Discount factor applied to the initial capex (lines 91-92):
`(1 + discount_rate) ** -max(0, start_year - current_year - 1)`. -/
def capexDiscountFactor (discount_rate : ℚ) (start_year current_year : ℤ) : ℚ :=
  (1 + discount_rate) ^ (-(max 0 (start_year - current_year - 1)))

/-- Synthetic capex row appended for visualisation (lines 98-108); its
`free_cash_flow` is the negative initial capex at year `start_year - 1`. -/
def capexRow (initial_capex discount_rate : ℚ) (start_year current_year : ℤ) : CashFlowRow :=
  { year := start_year - 1
    revenue := 0
    operating_cost := 0
    gross_profit := 0
    tax_expense := 0
    free_cash_flow := -initial_capex
    years_from_now := start_year - 1 - current_year
    discount_factor := capexDiscountFactor discount_rate start_year current_year
    present_value := -(initial_capex * capexDiscountFactor discount_rate start_year current_year) }

/-- Embedding of `NPVCalculator.calculate_project_npv` (lines 21-115).
Returns the NPV together with the full schedule (capex row first, which is
also ascending-year order, matching the code's `sort_values('year')`).
When `mine_life_years <= 0` the yearly list is empty and the code raises a
pandas `KeyError` at `df['year']`; this is the `.error` branch. -/
def calculate_project_npv (gold_price annual_production_oz aisc_per_oz discount_rate
    initial_capex : ℚ) (start_year mine_life_years : ℤ) (tax : ℚ) (current_year : ℤ) :
    Except CalcError (ℚ × List CashFlowRow) :=
  let rows := (projectYears start_year mine_life_years).map
      (operatingRow gold_price annual_production_oz aisc_per_oz tax discount_rate current_year)
  if rows.isEmpty then
    .error .keyErrorYear
  else
    let pv_operations := (rows.map CashFlowRow.present_value).sum
    let pv_capex := initial_capex * capexDiscountFactor discount_rate start_year current_year
    let npv := pv_operations - pv_capex
    .ok (npv, capexRow initial_capex discount_rate start_year current_year :: rows)

/-- Closed form of the NPV value produced by `calculate_project_npv` (used to
state value-level properties; proved to agree with the embedding below). -/
def npv_value (gold_price annual_production_oz aisc_per_oz discount_rate initial_capex : ℚ)
    (start_year mine_life_years : ℤ) (tax : ℚ) (current_year : ℤ) : ℚ :=
  ((projectYears start_year mine_life_years).map
      (fun y => (operatingRow gold_price annual_production_oz aisc_per_oz tax discount_rate
        current_year y).present_value)).sum
    - initial_capex * capexDiscountFactor discount_rate start_year current_year

/-- Helper: sums over mapped ranges agree with `Finset.range` sums. -/
theorem sum_map_range (f : ℕ → ℚ) (n : ℕ) :
    ((List.range n).map f).sum = ∑ i ∈ Finset.range n, f i := by
  induction n with
  | zero => simp
  | succ n ih =>
    rw [List.range_succ, List.map_append, List.sum_append, ih, Finset.sum_range_succ]
    simp

/-- Helper: with a positive mine life the embedding succeeds and its NPV
component is `npv_value`. -/
theorem calculate_project_npv_ok (gp prod aisc r capex : ℚ) (start ml : ℤ) (tax : ℚ) (cy : ℤ)
    (hml : 0 < ml) :
    calculate_project_npv gp prod aisc r capex start ml tax cy =
      .ok (npv_value gp prod aisc r capex start ml tax cy,
        capexRow capex r start cy ::
          (projectYears start ml).map (operatingRow gp prod aisc tax r cy)) := by
  unfold calculate_project_npv
  rw [if_neg]
  · simp only [npv_value, List.map_map]
    rfl
  · simp [projectYears]
    omega

/-- C1: with a positive mine life, `calculate_project_npv` returns a schedule
whose production year `start_year + i` (for `i < mine_life_years`) has
`revenue = production * price`, `operating_cost = production * aisc`,
`gross_profit = revenue - operating_cost`,
`tax_expense = max 0 (gross_profit * tax)` (never negative),
`free_cash_flow = gross_profit - tax_expense`, discounted by
`(1 + discount_rate) ^ (-(year - current_year))`; and the returned NPV is the
sum of the operating present values minus
`initial_capex * (1 + discount_rate) ^ (-(max 0 (start_year - current_year - 1)))`
(the capex discount exponent is floored at 0). -/
theorem calculate_project_npv_schedule_and_npv (gp prod aisc r capex : ℚ)
    (start ml : ℤ) (tax : ℚ) (cy : ℤ) (hml : 0 < ml) :
    calculate_project_npv gp prod aisc r capex start ml tax cy =
      .ok ((∑ i ∈ Finset.range ml.toNat,
              ((prod * gp - prod * aisc) - max 0 ((prod * gp - prod * aisc) * tax))
                * (1 + r) ^ (-((start + (i : ℤ)) - cy)))
            - capex * (1 + r) ^ (-(max 0 (start - cy - 1))),
          capexRow capex r start cy ::
            (List.range ml.toNat).map (fun i : ℕ =>
              { year := start + (i : ℤ)
                revenue := prod * gp
                operating_cost := prod * aisc
                gross_profit := prod * gp - prod * aisc
                tax_expense := max 0 ((prod * gp - prod * aisc) * tax)
                free_cash_flow :=
                  (prod * gp - prod * aisc) - max 0 ((prod * gp - prod * aisc) * tax)
                years_from_now := (start + (i : ℤ)) - cy
                discount_factor := (1 + r) ^ (-((start + (i : ℤ)) - cy))
                present_value :=
                  ((prod * gp - prod * aisc) - max 0 ((prod * gp - prod * aisc) * tax))
                    * (1 + r) ^ (-((start + (i : ℤ)) - cy)) })) := by
  rw [calculate_project_npv_ok gp prod aisc r capex start ml tax cy hml]
  congr 1
  refine Prod.ext ?_ ?_
  · show npv_value gp prod aisc r capex start ml tax cy = _
    rw [npv_value, ← sum_map_range (fun i =>
      ((prod * gp - prod * aisc) - max 0 ((prod * gp - prod * aisc) * tax))
        * (1 + r) ^ (-((start + (i : ℤ)) - cy))) ml.toNat]
    simp only [projectYears, List.map_map]
    rfl
  · show capexRow capex r start cy ::
        (projectYears start ml).map (operatingRow gp prod aisc tax r cy) = _
    simp only [projectYears, List.map_map]
    rfl

/-- Witness for C1 at a concrete input (mine life 2, production starting one
year after the reference year): derived from the claim theorem and evaluated
to concrete rows and NPV 1100. -/
theorem calculate_project_npv_schedule_and_npv_witness :
    (0 : ℤ) < 2 ∧
    calculate_project_npv 2000 1 1200 0 100 2026 2 (1/4) 2025 =
      .ok (1100,
        [{ year := 2025, revenue := 0, operating_cost := 0, gross_profit := 0,
           tax_expense := 0, free_cash_flow := -100, years_from_now := 0,
           discount_factor := 1, present_value := -100 },
         { year := 2026, revenue := 2000, operating_cost := 1200, gross_profit := 800,
           tax_expense := 200, free_cash_flow := 600, years_from_now := 1,
           discount_factor := 1, present_value := 600 },
         { year := 2027, revenue := 2000, operating_cost := 1200, gross_profit := 800,
           tax_expense := 200, free_cash_flow := 600, years_from_now := 2,
           discount_factor := 1, present_value := 600 }]) := by
  refine ⟨by norm_num, ?_⟩
  have h := calculate_project_npv_schedule_and_npv 2000 1 1200 0 100 2026 2 (1/4) 2025
    (by norm_num)
  rw [h]
  simp only [show (2 : ℤ).toNat = 2 from rfl]
  norm_num [capexRow, capexDiscountFactor, Finset.sum_range_succ, List.range_succ,
    CashFlowRow.mk.injEq]

/-- Helper: a successful result forces a positive mine life (otherwise the
yearly list is empty and the code raises). -/
theorem calculate_project_npv_ml_pos (gp prod aisc r capex : ℚ) (start ml : ℤ)
    (tax : ℚ) (cy : ℤ) (n : ℚ) (d : List CashFlowRow)
    (h : calculate_project_npv gp prod aisc r capex start ml tax cy = .ok (n, d)) :
    0 < ml := by
  by_contra hml
  push_neg at hml
  have hy : projectYears start ml = [] := by
    simp only [projectYears, List.map_eq_nil_iff, List.range_eq_nil]
    omega
  simp [calculate_project_npv, hy] at h

/-- Helper: the NPV component of any successful result is `npv_value`. -/
theorem calculate_project_npv_value_eq (gp prod aisc r capex : ℚ) (start ml : ℤ)
    (tax : ℚ) (cy : ℤ) (n : ℚ) (d : List CashFlowRow)
    (h : calculate_project_npv gp prod aisc r capex start ml tax cy = .ok (n, d)) :
    n = npv_value gp prod aisc r capex start ml tax cy := by
  have hml := calculate_project_npv_ml_pos gp prod aisc r capex start ml tax cy n d h
  rw [calculate_project_npv_ok gp prod aisc r capex start ml tax cy hml] at h
  simp only [Except.ok.injEq, Prod.mk.injEq] at h
  exact h.1.symm

/-- Helper: price-monotonicity of a single operating year's present value.
The discount factor does not depend on price; the free cash flow
`g - max 0 (g * tax)` with `g = production * (price - aisc)` is
non-decreasing in `g` whenever `tax <= 1`. -/
theorem operatingRow_pv_mono (p1 p2 prod aisc tax r : ℚ) (cy y : ℤ)
    (hprod : 0 ≤ prod) (htax : tax ≤ 1) (hr : 0 < 1 + r) (hp : p1 ≤ p2) :
    (operatingRow p1 prod aisc tax r cy y).present_value ≤
      (operatingRow p2 prod aisc tax r cy y).present_value := by
  have hdf : (0 : ℚ) < (1 + r) ^ (-(y - cy)) := zpow_pos hr _
  show ((prod * p1 - prod * aisc) - max 0 ((prod * p1 - prod * aisc) * tax))
      * (1 + r) ^ (-(y - cy)) ≤
    ((prod * p2 - prod * aisc) - max 0 ((prod * p2 - prod * aisc) * tax))
      * (1 + r) ^ (-(y - cy))
  apply mul_le_mul_of_nonneg_right _ hdf.le
  have hg : prod * p1 - prod * aisc ≤ prod * p2 - prod * aisc := by
    have := mul_le_mul_of_nonneg_left hp hprod
    linarith
  have hkey : max 0 ((prod * p2 - prod * aisc) * tax) ≤
      max 0 ((prod * p1 - prod * aisc) * tax)
        + ((prod * p2 - prod * aisc) - (prod * p1 - prod * aisc)) := by
    apply max_le
    · have h0 : (0 : ℚ) ≤ max 0 ((prod * p1 - prod * aisc) * tax) := le_max_left _ _
      linarith
    · have hstep : ((prod * p2 - prod * aisc) - (prod * p1 - prod * aisc)) * tax ≤
          ((prod * p2 - prod * aisc) - (prod * p1 - prod * aisc)) * 1 :=
        mul_le_mul_of_nonneg_left htax (by linarith)
      have hmem : (prod * p1 - prod * aisc) * tax ≤
          max 0 ((prod * p1 - prod * aisc) * tax) := le_max_right _ _
      nlinarith
  linarith

/-- Helper: price-monotonicity of the NPV closed form. -/
theorem npv_value_price_mono (p1 p2 prod aisc r capex tax : ℚ) (start ml cy : ℤ)
    (hprod : 0 ≤ prod) (htax : tax ≤ 1) (hr : -1 < r) (hp : p1 ≤ p2) :
    npv_value p1 prod aisc r capex start ml tax cy ≤
      npv_value p2 prod aisc r capex start ml tax cy := by
  have h1r : (0 : ℚ) < 1 + r := by linarith
  unfold npv_value
  apply sub_le_sub_right
  apply List.sum_le_sum
  intro y _
  exact operatingRow_pv_mono p1 p2 prod aisc tax r cy y hprod htax h1r hp

/-- C5: for all else equal (production nonnegative, tax rate at most 1,
discount rate above -1), `calculate_project_npv` is monotonically
non-decreasing in the gold price: whenever `p1 < p2`, the NPV computed at
`p1` is at most the NPV computed at `p2`. -/
theorem calculate_project_npv_monotone_in_gold_price
    (prod aisc r capex tax : ℚ) (start ml cy : ℤ) (p1 p2 n1 n2 : ℚ)
    (d1 d2 : List CashFlowRow)
    (hprod : 0 ≤ prod) (htax : tax ≤ 1) (hr : -1 < r) (hp : p1 < p2)
    (h1 : calculate_project_npv p1 prod aisc r capex start ml tax cy = .ok (n1, d1))
    (h2 : calculate_project_npv p2 prod aisc r capex start ml tax cy = .ok (n2, d2)) :
    n1 ≤ n2 := by
  rw [calculate_project_npv_value_eq p1 prod aisc r capex start ml tax cy n1 d1 h1,
    calculate_project_npv_value_eq p2 prod aisc r capex start ml tax cy n2 d2 h2]
  exact npv_value_price_mono p1 p2 prod aisc r capex tax start ml cy hprod htax hr hp.le

/-- Witness for C5 at concrete prices 1900 < 2000. -/
theorem calculate_project_npv_monotone_in_gold_price_witness :
    (0 : ℚ) ≤ 1 ∧ (1/4 : ℚ) ≤ 1 ∧ (-1 : ℚ) < 0 ∧ (1900 : ℚ) < 2000 ∧
    npv_value 1900 1 1200 0 0 2025 1 (1/4) 2025 ≤
      npv_value 2000 1 1200 0 0 2025 1 (1/4) 2025 :=
  ⟨by norm_num, by norm_num, by norm_num, by norm_num,
    calculate_project_npv_monotone_in_gold_price 1 1200 0 0 (1/4) 2025 1 2025
      1900 2000 _ _ _ _ (by norm_num) (by norm_num) (by norm_num) (by norm_num)
      (calculate_project_npv_ok 1900 1 1200 0 0 2025 1 (1/4) 2025 (by norm_num))
      (calculate_project_npv_ok 2000 1 1200 0 0 2025 1 (1/4) 2025 (by norm_num))⟩

/-- The NPV seen by the breakeven search at a candidate price: the first
component of `calculate_project_npv` called with the calculator's tax rate
(npv_calculator.py lines 199-207). -/
def npvAtPrice (prod aisc r capex : ℚ) (start ml : ℤ) (tax : ℚ) (cy : ℤ)
    (price : ℚ) : Except CalcError ℚ :=
  (calculate_project_npv price prod aisc r capex start ml tax cy).map Prod.fst

/-- Loop of `NPVCalculator.find_breakeven_gold_price` (lines 197-212):
`while search_max - search_min > tolerance`, probe the midpoint, move the
upper bound down if NPV is positive there and the lower bound up otherwise.
The `fuel` argument bounds the iteration count of the source's unbounded
while loop; since the interval width halves each pass, any
`fuel` with `width <= tolerance * 2 ^ fuel` reaches the loop's real exit. -/
def bsearchGo (npvAt : ℚ → Except CalcError ℚ) (tol : ℚ) :
    ℕ → ℚ → ℚ → Except CalcError (ℚ × ℚ)
  | 0, lo, hi => .ok (lo, hi)
  | fuel + 1, lo, hi =>
    if hi - lo ≤ tol then .ok (lo, hi)
    else
      (npvAt ((lo + hi) / 2)).bind (fun npv =>
        if npv > 0 then bsearchGo npvAt tol fuel lo ((lo + hi) / 2)
        else bsearchGo npvAt tol fuel ((lo + hi) / 2) hi)

/-- Embedding of `NPVCalculator.find_breakeven_gold_price` (lines 166-216):
binary search over `[search_min, search_max]`, returning the midpoint of the
final interval (an exception from the NPV call propagates, as in Python). -/
def find_breakeven_gold_price (fuel : ℕ) (prod aisc r capex : ℚ) (start ml : ℤ)
    (tax : ℚ) (cy : ℤ) (search_min search_max tol : ℚ) : Except CalcError ℚ :=
  (bsearchGo (npvAtPrice prod aisc r capex start ml tax cy) tol fuel
      search_min search_max).map (fun lh => (lh.1 + lh.2) / 2)

/-- Helper: with a positive mine life the probe returns `npv_value`. -/
theorem npvAtPrice_ok (prod aisc r capex : ℚ) (start ml : ℤ) (tax : ℚ) (cy : ℤ)
    (price : ℚ) (hml : 0 < ml) :
    npvAtPrice prod aisc r capex start ml tax cy price =
      .ok (npv_value price prod aisc r capex start ml tax cy) := by
  rw [npvAtPrice, calculate_project_npv_ok price prod aisc r capex start ml tax cy hml]
  rfl

/-- Helper: the binary-search loop narrows the bracket to width at most the
tolerance while preserving the sign-change invariant, provided the probe
always succeeds and the fuel covers the needed iterations. -/
theorem bsearchGo_spec (npvAt : ℚ → Except CalcError ℚ) (f : ℚ → ℚ)
    (hok : ∀ p, npvAt p = .ok (f p)) (tol : ℚ) :
    ∀ (fuel : ℕ) (lo hi : ℚ), lo ≤ hi → hi - lo ≤ tol * 2 ^ fuel →
      f lo ≤ 0 → 0 < f hi →
      ∃ lo2 hi2, bsearchGo npvAt tol fuel lo hi = .ok (lo2, hi2) ∧
        lo ≤ lo2 ∧ lo2 ≤ hi2 ∧ hi2 ≤ hi ∧ hi2 - lo2 ≤ tol ∧ f lo2 ≤ 0 ∧ 0 < f hi2 := by
  intro fuel
  induction fuel with
  | zero =>
    intro lo hi hle hw hlo hhi
    exact ⟨lo, hi, rfl, le_refl _, hle, le_refl _, by simpa using hw, hlo, hhi⟩
  | succ fuel ih =>
    intro lo hi hle hw hlo hhi
    rw [bsearchGo]
    by_cases hc : hi - lo ≤ tol
    · rw [if_pos hc]
      exact ⟨lo, hi, rfl, le_refl _, hle, le_refl _, hc, hlo, hhi⟩
    · rw [if_neg hc, hok ((lo + hi) / 2)]
      have hbind : ∀ g : ℚ → Except CalcError (ℚ × ℚ),
          (Except.ok (f ((lo + hi) / 2))).bind g = g (f ((lo + hi) / 2)) :=
        fun g => rfl
      rw [hbind]
      have hw2 : (hi - lo) / 2 ≤ tol * 2 ^ fuel := by
        rw [pow_succ] at hw
        linarith
      by_cases hm : f ((lo + hi) / 2) > 0
      · rw [if_pos hm]
        obtain ⟨lo2, hi2, heq, ha, hb, hcc, hd, he, hf2⟩ :=
          ih lo ((lo + hi) / 2) (by linarith) (by linarith) hlo hm
        exact ⟨lo2, hi2, heq, ha, hb, by linarith, hd, he, hf2⟩
      · rw [if_neg hm]
        push_neg at hm
        obtain ⟨lo2, hi2, heq, ha, hb, hcc, hd, he, hf2⟩ :=
          ih ((lo + hi) / 2) hi (by linarith) (by linarith) hm hhi
        exact ⟨lo2, hi2, heq, by linarith, hb, hcc, hd, he, hf2⟩

/-- Helper: one loop pass that moves the lower bound up (midpoint NPV not
positive). -/
theorem bsearch_step_down (F : ℚ → Except CalcError ℚ) (tol : ℚ) (fuel : ℕ)
    (lo hi v : ℚ) (hw : ¬ hi - lo ≤ tol) (hF : F ((lo + hi) / 2) = .ok v)
    (hv : ¬ v > 0) :
    bsearchGo F tol (fuel + 1) lo hi = bsearchGo F tol fuel ((lo + hi) / 2) hi := by
  rw [bsearchGo, if_neg hw, hF]
  show (if v > 0 then bsearchGo F tol fuel lo ((lo + hi) / 2)
    else bsearchGo F tol fuel ((lo + hi) / 2) hi) = _
  rw [if_neg hv]

/-- Helper: loop exit once the bracket is within tolerance. -/
theorem bsearch_stop (F : ℚ → Except CalcError ℚ) (tol : ℚ) (fuel : ℕ)
    (lo hi : ℚ) (hw : hi - lo ≤ tol) :
    bsearchGo F tol (fuel + 1) lo hi = .ok (lo, hi) := by
  rw [bsearchGo, if_pos hw]

/-- Helper: closed form of the search's NPV probe for the one-year,
zero-capex project with AISC 5000, zero discount rate, production 1 oz,
starting in the reference year, at any price below cost. -/
theorem npvAtPrice_toy (p : ℚ) (hp : p < 5000) :
    npvAtPrice 1 5000 0 0 2025 1 (1/4) 2025 p = .ok (p - 5000) := by
  rw [npvAtPrice_ok 1 5000 0 0 2025 1 (1/4) 2025 p (by norm_num)]
  have hy : projectYears 2025 1 = [2025] := by
    simp only [projectYears, show (1 : ℤ).toNat = 1 from rfl, List.range_succ,
      List.range_zero]
    norm_num
  have hmax : max (0 : ℚ) ((1 * p - 1 * 5000) * (1/4)) = 0 :=
    max_eq_left (by linarith)
  rw [npv_value, hy]
  simp only [List.map_cons, List.map_nil, List.sum_cons, List.sum_nil,
    operatingRow, capexDiscountFactor]
  rw [hmax]
  norm_num

/-- C2 counterexample: a valid project (production 1 oz, mine life 1 year,
tolerance 1) whose breakeven lies far above the search window
`[1000, 2500]` (AISC 5000, zero capex, zero discount, start in the reference
year).  The search drifts to the top of the window and returns
2559625/1024 = 2499.6337890625, where the NPV is -2560375/1024, about
-2500, with magnitude far outside the tolerance of 1: so
`|npv(find_breakeven_gold_price(...))| < tolerance` fails at this valid
input. -/
theorem find_breakeven_npv_not_within_tolerance :
    find_breakeven_gold_price 20 1 5000 0 0 2025 1 (1/4) 2025 1000 2500 1 =
      .ok (2559625/1024) ∧
    npvAtPrice 1 5000 0 0 2025 1 (1/4) 2025 (2559625/1024) =
      .ok (-2560375/1024) ∧
    ¬ |(-2560375/1024 : ℚ)| < 1 := by
  refine ⟨?_, ?_, by rw [abs_of_nonpos (by norm_num)]; norm_num⟩
  · rw [find_breakeven_gold_price]
    rw [show (20:ℕ) = 19 + 1 from rfl, bsearch_step_down _ 1 19 1000 2500 _
      (by norm_num) (npvAtPrice_toy _ (by norm_num)) (by norm_num)]
    norm_num
    rw [show (19:ℕ) = 18 + 1 from rfl, bsearch_step_down _ 1 18 1750 2500 _
      (by norm_num) (npvAtPrice_toy _ (by norm_num)) (by norm_num)]
    norm_num
    rw [show (18:ℕ) = 17 + 1 from rfl, bsearch_step_down _ 1 17 2125 2500 _
      (by norm_num) (npvAtPrice_toy _ (by norm_num)) (by norm_num)]
    norm_num
    rw [show (17:ℕ) = 16 + 1 from rfl, bsearch_step_down _ 1 16 (4625/2) 2500 _
      (by norm_num) (npvAtPrice_toy _ (by norm_num)) (by norm_num)]
    norm_num
    rw [show (16:ℕ) = 15 + 1 from rfl, bsearch_step_down _ 1 15 (9625/4) 2500 _
      (by norm_num) (npvAtPrice_toy _ (by norm_num)) (by norm_num)]
    norm_num
    rw [show (15:ℕ) = 14 + 1 from rfl, bsearch_step_down _ 1 14 (19625/8) 2500 _
      (by norm_num) (npvAtPrice_toy _ (by norm_num)) (by norm_num)]
    norm_num
    rw [show (14:ℕ) = 13 + 1 from rfl, bsearch_step_down _ 1 13 (39625/16) 2500 _
      (by norm_num) (npvAtPrice_toy _ (by norm_num)) (by norm_num)]
    norm_num
    rw [show (13:ℕ) = 12 + 1 from rfl, bsearch_step_down _ 1 12 (79625/32) 2500 _
      (by norm_num) (npvAtPrice_toy _ (by norm_num)) (by norm_num)]
    norm_num
    rw [show (12:ℕ) = 11 + 1 from rfl, bsearch_step_down _ 1 11 (159625/64) 2500 _
      (by norm_num) (npvAtPrice_toy _ (by norm_num)) (by norm_num)]
    norm_num
    rw [show (11:ℕ) = 10 + 1 from rfl, bsearch_step_down _ 1 10 (319625/128) 2500 _
      (by norm_num) (npvAtPrice_toy _ (by norm_num)) (by norm_num)]
    norm_num
    rw [show (10:ℕ) = 9 + 1 from rfl, bsearch_step_down _ 1 9 (639625/256) 2500 _
      (by norm_num) (npvAtPrice_toy _ (by norm_num)) (by norm_num)]
    norm_num
    rw [show (9:ℕ) = 8 + 1 from rfl, bsearch_stop _ 1 8 (1279625/512) 2500
      (by norm_num)]
    show Except.ok (((1279625/512 : ℚ) + 2500) / 2) = _
    norm_num
  · rw [npvAtPrice_toy (2559625/1024) (by norm_num)]
    norm_num

/-- Helper: the one-year schedule starting in the reference year 2025. -/
theorem projectYears_one : projectYears 2025 1 = [2025] := by
  simp only [projectYears, show (1 : ℤ).toNat = 1 from rfl, List.range_succ,
    List.range_zero]
  norm_num

/-- C2 (amended): when the breakeven is bracketed by the search window
(NPV at `search_min` is nonpositive and at `search_max` positive) and the
fuel covers the loop's iteration count (interval width at most
`tolerance * 2 ^ fuel`), the returned price lies inside a final bracket of
width at most `tolerance` across which the NPV changes sign.  The price is
within `tolerance` of a sign change of NPV; the NPV magnitude itself is not
bounded by `tolerance` (see the counterexample). -/
theorem find_breakeven_brackets_sign_change (prod aisc r capex tax : ℚ)
    (start ml cy : ℤ) (fuel : ℕ) (smin smax tol : ℚ)
    (hml : 0 < ml) (hle : smin ≤ smax) (hfuel : smax - smin ≤ tol * 2 ^ fuel)
    (hlo : npv_value smin prod aisc r capex start ml tax cy ≤ 0)
    (hhi : 0 < npv_value smax prod aisc r capex start ml tax cy) :
    ∃ p lo hi,
      find_breakeven_gold_price fuel prod aisc r capex start ml tax cy
        smin smax tol = .ok p ∧
      lo ≤ p ∧ p ≤ hi ∧ smin ≤ lo ∧ hi ≤ smax ∧ hi - lo ≤ tol ∧
      npv_value lo prod aisc r capex start ml tax cy ≤ 0 ∧
      0 < npv_value hi prod aisc r capex start ml tax cy := by
  obtain ⟨lo2, hi2, heq, ha, hb, hc, hd, he, hf⟩ :=
    bsearchGo_spec (npvAtPrice prod aisc r capex start ml tax cy)
      (fun p => npv_value p prod aisc r capex start ml tax cy)
      (fun p => npvAtPrice_ok prod aisc r capex start ml tax cy p hml) tol
      fuel smin smax hle hfuel hlo hhi
  refine ⟨(lo2 + hi2) / 2, lo2, hi2, ?_, by linarith, by linarith, ha, hc, hd, he, hf⟩
  rw [find_breakeven_gold_price, heq]
  rfl

/-- Witness for the amended C2 at a project with breakeven 1833.33 inside
the default window. -/
theorem find_breakeven_brackets_sign_change_witness :
    (0 : ℤ) < 1 ∧ (1000 : ℚ) ≤ 2500 ∧ (2500 : ℚ) - 1000 ≤ 1 * 2 ^ 11 ∧
    npv_value 1000 1 1500 0 0 2025 1 (1/4) 2025 ≤ 0 ∧
    0 < npv_value 2500 1 1500 0 0 2025 1 (1/4) 2025 ∧
    (∃ p lo hi,
      find_breakeven_gold_price 11 1 1500 0 0 2025 1 (1/4) 2025
        1000 2500 1 = .ok p ∧
      lo ≤ p ∧ p ≤ hi ∧ 1000 ≤ lo ∧ hi ≤ 2500 ∧ hi - lo ≤ 1 ∧
      npv_value lo 1 1500 0 0 2025 1 (1/4) 2025 ≤ 0 ∧
      0 < npv_value hi 1 1500 0 0 2025 1 (1/4) 2025) :=
  ⟨by norm_num, by norm_num, by norm_num,
    by norm_num [npv_value, projectYears_one, operatingRow, capexDiscountFactor, max_def],
    by norm_num [npv_value, projectYears_one, operatingRow, capexDiscountFactor, max_def],
    find_breakeven_brackets_sign_change 1 1500 0 0 (1/4) 2025 1 2025 11 1000 2500 1
      (by norm_num) (by norm_num) (by norm_num)
      (by norm_num [npv_value, projectYears_one, operatingRow, capexDiscountFactor, max_def])
      (by norm_num [npv_value, projectYears_one, operatingRow, capexDiscountFactor, max_def])⟩

/-- C3 counterexample: nonpositive production (0 oz/yr) with a positive mine
life is accepted silently: `calculate_project_npv` returns the numeric NPV
-100 (the discounted capex) instead of failing; no `InvalidParameterError`
is raised anywhere (no such exception exists in the code). -/
theorem calculate_project_npv_accepts_nonpositive_production :
    (calculate_project_npv 2000 0 1200 0 100 2025 1 (1/4) 2025).map Prod.fst =
      .ok (-100) := by
  rw [calculate_project_npv_ok 2000 0 1200 0 100 2025 1 (1/4) 2025 (by norm_num)]
  show Except.ok (npv_value 2000 0 1200 0 100 2025 1 (1/4) 2025) = _
  rw [npv_value, projectYears_one]
  norm_num [operatingRow, capexDiscountFactor]

/-- C3 (amended): `calculate_project_npv` performs no parameter validation.
With `mine_life_years <= 0` it fails, but with an empty-schedule KeyError
(there is no InvalidParameterError in the code); with
`annual_production_oz <= 0` (or any production) and a positive mine life it
silently returns a numeric result. -/
theorem calculate_project_npv_no_validation (gp prod aisc r capex : ℚ)
    (start ml : ℤ) (tax : ℚ) (cy : ℤ) :
    (ml ≤ 0 → calculate_project_npv gp prod aisc r capex start ml tax cy =
      .error .keyErrorYear) ∧
    (0 < ml → ∃ out, calculate_project_npv gp prod aisc r capex start ml tax cy =
      .ok out) := by
  constructor
  · intro hml
    have hy : projectYears start ml = [] := by
      simp only [projectYears, List.map_eq_nil_iff, List.range_eq_nil]
      omega
    simp [calculate_project_npv, hy]
  · intro hml
    exact ⟨_, calculate_project_npv_ok gp prod aisc r capex start ml tax cy hml⟩

/-- Witness for the amended C3 at mine life 0 (failure) and 1 (silent ok). -/
theorem calculate_project_npv_no_validation_witness :
    (0 : ℤ) ≤ 0 ∧
    calculate_project_npv 2000 1 1200 0 100 2025 0 (1/4) 2025 =
      .error .keyErrorYear ∧
    (0 : ℤ) < 1 ∧
    (∃ out, calculate_project_npv 2000 1 1200 0 100 2025 1 (1/4) 2025 =
      .ok out) :=
  ⟨le_refl 0,
    (calculate_project_npv_no_validation 2000 1 1200 0 100 2025 0 (1/4) 2025).1
      (le_refl 0),
    by norm_num,
    (calculate_project_npv_no_validation 2000 1 1200 0 100 2025 1 (1/4) 2025).2
      (by norm_num)⟩

/-- Coercion helper `CorporateNAVModel._safe_float` (nav_model.py lines
58-66): `none` models Python `None` or a value that fails float coercion. -/
def safe_float (value : Option ℚ) (default : ℚ) : ℚ := value.getD default

/-- Embedding of `CorporateNAVModel._stage_probability` (nav_model.py lines
68-76): the stage is normalised via `str(stage or "").strip().lower()`,
looked up in the configured stage-probability table (a missing or
non-numeric entry falls back to the configured default probability, itself
falling back to 0.5), and the result is clamped by
`max(0.0, min(1.0, probability))`. -/
def stage_probability (stage_probabilities : List (String × Option ℚ))
    (default_stage_probability : Option ℚ) (stage : Option String) : ℚ :=
  let stage_key := ((stage.getD "").trim).toLower
  let probability := safe_float ((stage_probabilities.lookup stage_key).bind id)
      (safe_float default_stage_probability (1/2))
  max 0 (min 1 probability)

/-- C10: for every stage string (missing, empty, cased or unknown) and
every configured table (including missing or non-numeric entries), the stage
probability used by the NAV model lies in [0, 1], so stage risking never
multiplies a project NAV by a factor below 0 or above 1. -/
theorem stage_probability_clamped (table : List (String × Option ℚ))
    (default_prob : Option ℚ) (stage : Option String) :
    0 ≤ stage_probability table default_prob stage ∧
    stage_probability table default_prob stage ≤ 1 := by
  unfold stage_probability
  constructor
  · exact le_max_left 0 _
  · exact max_le (by norm_num) (min_le_left 1 _)

/-- Ownership weighting of `_project_nav` (nav_model.py lines 106-107 and
146): `ownership_factor = max(0.0, ownership_pct) / 100.0`;
`unrisked_nav = npv * ownership_factor`. -/
def project_unrisked_nav (npv ownership_pct : ℚ) : ℚ :=
  npv * (max 0 ownership_pct / 100)

/-- Stage risking of `_project_nav` (nav_model.py lines 148-155): under
risking, the base is first clamped at 0 when `risk_positive_npv_only` is
configured (the default), then multiplied by the stage probability. -/
def risked_nav_calc (use_stage_risking risk_positive_npv_only : Bool)
    (unrisked_nav stage_prob : ℚ) : ℚ :=
  if use_stage_risking then
    (if risk_positive_npv_only then max 0 unrisked_nav else unrisked_nav) * stage_prob
  else unrisked_nav

/-- Company-level risked project NAV (nav_model.py line 231): the sum of the
projects' `risked_nav` values; each project is given here by its
ownership-weighted unrisked NAV paired with its stage probability. -/
def risked_project_nav_sum (use_risking risk_pos_only : Bool)
    (projects : List (ℚ × ℚ)) : ℚ :=
  (projects.map (fun pr => risked_nav_calc use_risking risk_pos_only pr.1 pr.2)).sum

/-- C4 counterexample: under the default configuration (risking enabled,
`risk_positive_npv_only = True`), a project with ownership-weighted
unrisked NAV -100 and stage probability 1/2 contributes 0 to the risked NAV
sum — not its full negative value -100, so negative NAV does NOT pass
through into the NAV sum. -/
theorem negative_nav_not_passed_through :
    risked_nav_calc true true (-100) (1/2) = 0 ∧
    risked_project_nav_sum true true [(-100, 1/2)] = 0 ∧
    ¬ risked_project_nav_sum true true [(-100, 1/2)] = -100 := by
  refine ⟨?_, ?_, ?_⟩ <;>
    norm_num [risked_nav_calc, risked_project_nav_sum, max_def]

/-- C4 (amended): with stage risking enabled under the default
configuration, `risked_nav = max(0, unrisked_nav) * stage_probability`;
consequently a project with negative ownership-weighted unrisked NAV is
clamped to 0 — it contributes nothing (not its full negative value) to the
risked NAV sum. -/
theorem risked_nav_clamps_negative (u p : ℚ) :
    risked_nav_calc true true u p = max 0 u * p ∧
    (u < 0 → risked_nav_calc true true u p = 0) := by
  constructor
  · rfl
  · intro hu
    show max 0 u * p = 0
    rw [max_eq_left hu.le, zero_mul]

/-- Witness for the amended C4 at unrisked NAV -5, probability 1/3. -/
theorem risked_nav_clamps_negative_witness :
    risked_nav_calc true true (-5) (1/3) = max 0 (-5) * (1/3) ∧
    (-5 : ℚ) < 0 ∧ risked_nav_calc true true (-5) (1/3) = 0 :=
  ⟨(risked_nav_clamps_negative (-5) (1/3)).1, by norm_num,
    (risked_nav_clamps_negative (-5) (1/3)).2 (by norm_num)⟩

/-- Corporate NAV bridge (nav_model.py line 242):
`corporate_nav = project_nav_selected + cash - debt + net_adjustment`. -/
def corporate_nav_calc (project_nav_selected cash debt net_adjustment : ℚ) : ℚ :=
  project_nav_selected + cash - debt + net_adjustment

/-- The P/NAV guard (nav_model.py line 247):
`market_cap / corporate_nav if corporate_nav > 0 else None`. -/
def p_nav_calc (market_cap corporate_nav : ℚ) : Option ℚ :=
  if corporate_nav > 0 then some (market_cap / corporate_nav) else none

/-- C8: `calculate_company_nav` reports `p_nav = market_cap / corporate_nav`
only when the corporate NAV is positive; for every input with
`corporate_nav <= 0` the multiple is `none` — never zero, never a negative
multiple, never a division artifact. -/
theorem p_nav_defined_iff_positive (market_cap s c d a : ℚ) :
    (0 < corporate_nav_calc s c d a →
      p_nav_calc market_cap (corporate_nav_calc s c d a) =
        some (market_cap / corporate_nav_calc s c d a)) ∧
    (corporate_nav_calc s c d a ≤ 0 →
      p_nav_calc market_cap (corporate_nav_calc s c d a) = none) := by
  constructor
  · intro h
    rw [p_nav_calc, if_pos h]
  · intro h
    rw [p_nav_calc, if_neg (not_lt.mpr h)]

/-- Witness for C8: positive corporate NAV 220 gives the multiple; negative
corporate NAV -350 gives `none`. -/
theorem p_nav_defined_iff_positive_witness :
    (0 : ℚ) < corporate_nav_calc 200 50 30 0 ∧
    p_nav_calc 100 (corporate_nav_calc 200 50 30 0) = some (5/11) ∧
    corporate_nav_calc (-300) 50 100 0 ≤ 0 ∧
    p_nav_calc 100 (corporate_nav_calc (-300) 50 100 0) = none := by
  refine ⟨by norm_num [corporate_nav_calc], ?_, by norm_num [corporate_nav_calc], ?_⟩
  · rw [(p_nav_defined_iff_positive 100 200 50 30 0).1
      (by norm_num [corporate_nav_calc])]
    norm_num [corporate_nav_calc]
  · exact (p_nav_defined_iff_positive 100 (-300) 50 100 0).2
      (by norm_num [corporate_nav_calc])

/-- Outcome of the external root-finder `np.irr` (a numpy function, not part
of this repository): a converged value, NaN (detected by `np.isnan`, the
non-convergence signal), or a raised exception. -/
inductive NpIrrOutcome where
  | value (r : ℝ)
  | nan
  | raises

/-- Failure mode of `calculate_irr` itself: in the bare-except fallback
(npv_calculator.py line 142) the division
`(annual_fcf * mine_life_years) / initial_capex` is evaluated inside the
exception handler, so with `initial_capex = 0` Python raises
`ZeroDivisionError` and it propagates out of the handler. -/
inductive IrrError where
  | zeroDivisionError
deriving Repr, DecidableEq

/-- Embedding of `NPVCalculator.calculate_irr` (npv_calculator.py lines
117-145), with the external `np.irr` call abstracted as an oracle outcome.
A converged value is returned as-is; NaN maps to 0 (line 139); only a raised
exception reaches the approximation branch (lines 140-145), which divides by
`initial_capex` — raising `ZeroDivisionError` out of the bare except when
the capex is 0 — and otherwise returns
`(annual_fcf * mine_life / initial_capex) ^ (1 / mine_life) - 1` when the
total return is positive and 0 otherwise.  A successful result is a bare
float: no tag records which path produced it. -/
noncomputable def calculate_irr (npirr : NpIrrOutcome)
    (initial_capex annual_fcf : ℝ) (mine_life_years : ℤ) : Except IrrError ℝ :=
  match npirr with
  | .value r => .ok r
  | .nan => .ok 0
  | .raises =>
    if initial_capex = 0 then .error .zeroDivisionError
    else
      let total_return := annual_fcf * (mine_life_years : ℝ) / initial_capex
      if total_return > 0 then .ok (total_return ^ ((1 : ℝ) / (mine_life_years : ℝ)) - 1)
      else .ok 0

/-- C6 counterexample: with capex 100, constant FCF 20 and mine life 10, a
non-convergent root-finder (NaN) makes `calculate_irr` return 0 — not the
compound-growth approximation 2^(1/10) - 1, which is nonzero — and that 0
is exactly what a converged 0% IRR produces, so the fallback is a silent
numeric substitution with no `method` tag in the output. -/
theorem calculate_irr_nan_returns_zero_untagged :
    calculate_irr .nan 100 20 10 = .ok 0 ∧
    calculate_irr .raises 100 20 10 ≠ .ok 0 ∧
    calculate_irr .nan 100 20 10 = calculate_irr (.value 0) 100 20 10 := by
  refine ⟨rfl, ?_, rfl⟩
  show (if (100 : ℝ) = 0 then Except.error IrrError.zeroDivisionError
      else if (20 : ℝ) * ((10 : ℤ) : ℝ) / 100 > 0
        then Except.ok (((20 : ℝ) * ((10 : ℤ) : ℝ) / 100) ^ ((1 : ℝ) / ((10 : ℤ) : ℝ)) - 1)
        else Except.ok 0) ≠ Except.ok 0
  rw [if_neg (by norm_num), if_pos (by norm_num)]
  have h2 : (20 : ℝ) * ((10 : ℤ) : ℝ) / 100 = 2 := by norm_num
  have h3 : ((1 : ℝ) / ((10 : ℤ) : ℝ)) = 1/10 := by norm_num
  rw [h2, h3]
  have hgt : (1 : ℝ) < (2 : ℝ) ^ ((1 : ℝ) / 10) := by
    rw [Real.one_lt_rpow_iff_of_pos (by norm_num)]
    left
    constructor <;> norm_num
  intro hc
  rw [Except.ok.injEq, sub_eq_zero] at hc
  rw [hc] at hgt
  exact lt_irrefl 1 hgt

/-- C6 (amended): a converged root is returned unchanged; a NaN
(non-convergent) root-finder result yields 0, not the approximation; only a
raised exception reaches the compound-growth fallback, which itself raises
`ZeroDivisionError` when `initial_capex = 0` and otherwise returns
`(annual_fcf * mine_life / initial_capex) ^ (1/mine_life) - 1` (0 when the
total return is nonpositive); every successful result is an untagged bare
number, so the NaN fallback is indistinguishable from a converged 0% IRR. -/
theorem calculate_irr_fallback_behaviour (capex fcf : ℝ) (ml : ℤ) :
    (∀ r, calculate_irr (.value r) capex fcf ml = .ok r) ∧
    calculate_irr .nan capex fcf ml = .ok 0 ∧
    (capex = 0 → calculate_irr .raises capex fcf ml = .error .zeroDivisionError) ∧
    (capex ≠ 0 → calculate_irr .raises capex fcf ml =
      (if fcf * (ml : ℝ) / capex > 0
        then .ok ((fcf * (ml : ℝ) / capex) ^ ((1 : ℝ) / (ml : ℝ)) - 1)
        else .ok 0)) ∧
    calculate_irr .nan capex fcf ml = calculate_irr (.value 0) capex fcf ml := by
  refine ⟨fun _ => rfl, rfl, ?_, ?_, rfl⟩
  · intro h
    show (if capex = 0 then Except.error IrrError.zeroDivisionError
        else if fcf * (ml : ℝ) / capex > 0
          then Except.ok ((fcf * (ml : ℝ) / capex) ^ ((1 : ℝ) / (ml : ℝ)) - 1)
          else Except.ok 0) = Except.error IrrError.zeroDivisionError
    rw [if_pos h]
  · intro h
    show (if capex = 0 then Except.error IrrError.zeroDivisionError
        else if fcf * (ml : ℝ) / capex > 0
          then Except.ok ((fcf * (ml : ℝ) / capex) ^ ((1 : ℝ) / (ml : ℝ)) - 1)
          else Except.ok 0) = _
    rw [if_neg h]

/-- Witness for the amended C6 at capex 0 (fallback raises) and capex 100
(fallback computes the approximation guard). -/
theorem calculate_irr_fallback_behaviour_witness :
    (0 : ℝ) = 0 ∧
    calculate_irr .raises 0 20 10 = .error .zeroDivisionError ∧
    (100 : ℝ) ≠ 0 ∧
    calculate_irr .raises 100 20 10 =
      (if (20 : ℝ) * ((10 : ℤ) : ℝ) / 100 > 0
        then .ok (((20 : ℝ) * ((10 : ℤ) : ℝ) / 100) ^ ((1 : ℝ) / ((10 : ℤ) : ℝ)) - 1)
        else .ok 0) :=
  ⟨rfl, (calculate_irr_fallback_behaviour 0 20 10).2.2.1 rfl, by norm_num,
    (calculate_irr_fallback_behaviour 100 20 10).2.2.2.1 (by norm_num)⟩

/-- One configured dilution band: a dilution percentage with its probability
(dilution_scenarios.py, DEFAULT_SCENARIOS and _build_informed_scenarios). -/
structure DilutionBand where
  dilution_percentage : ℚ
  probability : ℚ
deriving Repr, DecidableEq

/-- The four generic default bands (dilution_scenarios.py lines 34-79):
dilution 10%@p=0.20, 30%@0.50, 60%@0.25, 100%@0.05. -/
def DEFAULT_SCENARIOS : List DilutionBand :=
  [⟨10, 1/5⟩, ⟨30, 1/2⟩, ⟨60, 1/4⟩, ⟨100, 1/20⟩]

/-- Share arithmetic of `model_scenarios` (dilution_scenarios.py lines
222-227): `dilution_pct = dilution_percentage / 100`;
`new_shares = current_shares * dilution_pct`;
`post_shares = current_shares + new_shares`. -/
def new_shares_calc (current_shares : ℚ) (b : DilutionBand) : ℚ :=
  current_shares * (b.dilution_percentage / 100)

/-- Post-dilution share count of one band (line 227). -/
def post_shares_calc (current_shares : ℚ) (b : DilutionBand) : ℚ :=
  current_shares + new_shares_calc current_shares b

/-- Probability-weighted expected post-dilution share count, accumulated at
line 271 as `expected_shares += post_shares * probability`. -/
def expected_post_shares (current_shares : ℚ) (bands : List DilutionBand) : ℚ :=
  (bands.map (fun b => post_shares_calc current_shares b * b.probability)).sum

/-- Minimum of a list of rationals (0 for the empty list). -/
def qListMin : List ℚ → ℚ
  | [] => 0
  | x :: xs => xs.foldl min x

/-- Maximum of a list of rationals (0 for the empty list). -/
def qListMax : List ℚ → ℚ
  | [] => 0
  | x :: xs => xs.foldl max x

/-- Helper: a min-fold is below its seed. -/
theorem foldl_min_le_seed (xs : List ℚ) : ∀ x : ℚ, xs.foldl min x ≤ x := by
  induction xs with
  | nil => intro x; exact le_refl x
  | cons a xs ih =>
    intro x
    calc xs.foldl min (min x a) ≤ min x a := ih _
      _ ≤ x := min_le_left x a

/-- Helper: a min-fold is below every member. -/
theorem foldl_min_le_mem (xs : List ℚ) : ∀ x y : ℚ, y ∈ xs → xs.foldl min x ≤ y := by
  induction xs with
  | nil => intro x y hy; cases hy
  | cons a xs ih =>
    intro x y hy
    cases hy with
    | head =>
      calc xs.foldl min (min x a) ≤ min x a := foldl_min_le_seed xs _
        _ ≤ a := min_le_right x a
    | tail _ hmem => exact ih _ y hmem

/-- Helper: a max-fold is above its seed. -/
theorem seed_le_foldl_max (xs : List ℚ) : ∀ x : ℚ, x ≤ xs.foldl max x := by
  induction xs with
  | nil => intro x; exact le_refl x
  | cons a xs ih =>
    intro x
    calc x ≤ max x a := le_max_left x a
      _ ≤ xs.foldl max (max x a) := ih _

/-- Helper: a max-fold is above every member. -/
theorem mem_le_foldl_max (xs : List ℚ) : ∀ x y : ℚ, y ∈ xs → y ≤ xs.foldl max x := by
  induction xs with
  | nil => intro x y hy; cases hy
  | cons a xs ih =>
    intro x y hy
    cases hy with
    | head =>
      calc a ≤ max x a := le_max_right x a
        _ ≤ xs.foldl max (max x a) := seed_le_foldl_max xs _
    | tail _ hmem => exact ih _ y hmem

/-- Helper: the list minimum bounds every member from below. -/
theorem qListMin_le (l : List ℚ) (y : ℚ) (hy : y ∈ l) : qListMin l ≤ y := by
  cases l with
  | nil => cases hy
  | cons a xs =>
    cases hy with
    | head => exact foldl_min_le_seed xs y
    | tail _ hmem => exact foldl_min_le_mem xs a y hmem

/-- Helper: the list maximum bounds every member from above. -/
theorem le_qListMax (l : List ℚ) (y : ℚ) (hy : y ∈ l) : y ≤ qListMax l := by
  cases l with
  | nil => cases hy
  | cons a xs =>
    cases hy with
    | head => exact seed_le_foldl_max xs y
    | tail _ hmem => exact mem_le_foldl_max xs a y hmem

/-- Helper: an upper bound on a probability-weighted sum. -/
theorem weighted_sum_le (bands : List DilutionBand) (f : DilutionBand → ℚ) (M : ℚ)
    (hw : ∀ b ∈ bands, 0 ≤ b.probability) (hM : ∀ b ∈ bands, f b ≤ M) :
    (bands.map (fun b => f b * b.probability)).sum ≤
      M * (bands.map DilutionBand.probability).sum := by
  induction bands with
  | nil => simp
  | cons a l ih =>
    simp only [List.map_cons, List.sum_cons]
    have h1 : f a * a.probability ≤ M * a.probability :=
      mul_le_mul_of_nonneg_right (hM a (List.mem_cons_self a l))
        (hw a (List.mem_cons_self a l))
    have h2 := ih (fun b hb => hw b (List.mem_cons_of_mem a hb))
      (fun b hb => hM b (List.mem_cons_of_mem a hb))
    calc f a * a.probability + (l.map (fun b => f b * b.probability)).sum ≤
        M * a.probability + M * (l.map DilutionBand.probability).sum :=
          add_le_add h1 h2
      _ = M * (a.probability + (l.map DilutionBand.probability).sum) := by ring

/-- Helper: a lower bound on a probability-weighted sum. -/
theorem weighted_sum_ge (bands : List DilutionBand) (f : DilutionBand → ℚ) (m : ℚ)
    (hw : ∀ b ∈ bands, 0 ≤ b.probability) (hm : ∀ b ∈ bands, m ≤ f b) :
    m * (bands.map DilutionBand.probability).sum ≤
      (bands.map (fun b => f b * b.probability)).sum := by
  induction bands with
  | nil => simp
  | cons a l ih =>
    simp only [List.map_cons, List.sum_cons]
    have h1 : m * a.probability ≤ f a * a.probability :=
      mul_le_mul_of_nonneg_right (hm a (List.mem_cons_self a l))
        (hw a (List.mem_cons_self a l))
    have h2 := ih (fun b hb => hw b (List.mem_cons_of_mem a hb))
      (fun b hb => hm b (List.mem_cons_of_mem a hb))
    calc m * (a.probability + (l.map DilutionBand.probability).sum) =
        m * a.probability + m * (l.map DilutionBand.probability).sum := by ring
      _ ≤ f a * a.probability + (l.map (fun b => f b * b.probability)).sum :=
          add_le_add h1 h2

/-- C7: in `model_scenarios`, every band in the active set has
`post_shares = current_shares * (1 + dilution_percentage / 100)` exactly;
and with (nonnegative) probabilities summing to 1, the probability-weighted
`expected_post_shares` lies between the minimum and maximum of the bands'
post-dilution share counts. -/
theorem dilution_post_shares_and_expected_bounds (current_shares : ℚ)
    (bands : List DilutionBand)
    (hw : ∀ b ∈ bands, 0 ≤ b.probability)
    (hsum : (bands.map DilutionBand.probability).sum = 1) :
    (∀ b ∈ bands, post_shares_calc current_shares b =
      current_shares * (1 + b.dilution_percentage / 100)) ∧
    qListMin (bands.map (post_shares_calc current_shares)) ≤
      expected_post_shares current_shares bands ∧
    expected_post_shares current_shares bands ≤
      qListMax (bands.map (post_shares_calc current_shares)) := by
  refine ⟨fun b _ => by rw [post_shares_calc, new_shares_calc]; ring, ?_, ?_⟩
  · have h := weighted_sum_ge bands (post_shares_calc current_shares)
      (qListMin (bands.map (post_shares_calc current_shares))) hw
      (fun b hb => qListMin_le _ _ (List.mem_map_of_mem _ hb))
    rw [hsum, mul_one] at h
    exact h
  · have h := weighted_sum_le bands (post_shares_calc current_shares)
      (qListMax (bands.map (post_shares_calc current_shares))) hw
      (fun b hb => le_qListMax _ _ (List.mem_map_of_mem _ hb))
    rw [hsum, mul_one] at h
    exact h

/-- Witness for C7 on the default band set with 100 current shares. -/
theorem dilution_post_shares_and_expected_bounds_witness :
    (∀ b ∈ DEFAULT_SCENARIOS, 0 ≤ b.probability) ∧
    (DEFAULT_SCENARIOS.map DilutionBand.probability).sum = 1 ∧
    ((∀ b ∈ DEFAULT_SCENARIOS, post_shares_calc 100 b =
      100 * (1 + b.dilution_percentage / 100)) ∧
    qListMin (DEFAULT_SCENARIOS.map (post_shares_calc 100)) ≤
      expected_post_shares 100 DEFAULT_SCENARIOS ∧
    expected_post_shares 100 DEFAULT_SCENARIOS ≤
      qListMax (DEFAULT_SCENARIOS.map (post_shares_calc 100))) := by
  have hw : ∀ b ∈ DEFAULT_SCENARIOS, 0 ≤ b.probability := by
    intro b hb
    fin_cases hb <;> norm_num
  have hsum : (DEFAULT_SCENARIOS.map DilutionBand.probability).sum = 1 := by
    norm_num [DEFAULT_SCENARIOS]
  exact ⟨hw, hsum, dilution_post_shares_and_expected_bounds 100 DEFAULT_SCENARIOS hw hsum⟩

/-- One scored risk category: the integer 1-5 score together with its
configured weight (risk_scorer.py, the score_* functions each return
`score` and `weight`). -/
structure CategoryScore where
  score : ℤ
  weight : ℚ
deriving Repr, DecidableEq

/-- Weighted composite of the five categories in the code's iteration order
funding, execution, commodity, control, timing (risk_scorer.py lines
256-268): `sum(cat['score'] * cat['weight'] for cat in categories.values())`. -/
def composite_score (funding execution commodity control timing : CategoryScore) : ℚ :=
  (funding.score : ℚ) * funding.weight + (execution.score : ℚ) * execution.weight
    + (commodity.score : ℚ) * commodity.weight + (control.score : ℚ) * control.weight
    + (timing.score : ℚ) * timing.weight

/-- C9: for integer category scores in 1..5 and nonnegative weights summing
to 1, the composite risk score lies in [1, 5]; and all categories at score 3
with the default weights 0.25/0.25/0.20/0.15/0.15 give exactly 3.0. -/
theorem composite_score_bounds (f e c k t : CategoryScore)
    (hf1 : 1 ≤ f.score) (hf5 : f.score ≤ 5) (hfw : 0 ≤ f.weight)
    (he1 : 1 ≤ e.score) (he5 : e.score ≤ 5) (hew : 0 ≤ e.weight)
    (hc1 : 1 ≤ c.score) (hc5 : c.score ≤ 5) (hcw : 0 ≤ c.weight)
    (hk1 : 1 ≤ k.score) (hk5 : k.score ≤ 5) (hkw : 0 ≤ k.weight)
    (ht1 : 1 ≤ t.score) (ht5 : t.score ≤ 5) (htw : 0 ≤ t.weight)
    (hsum : f.weight + e.weight + c.weight + k.weight + t.weight = 1) :
    (1 ≤ composite_score f e c k t ∧ composite_score f e c k t ≤ 5) ∧
    composite_score ⟨3, 1/4⟩ ⟨3, 1/4⟩ ⟨3, 1/5⟩ ⟨3, 3/20⟩ ⟨3, 3/20⟩ = 3 := by
  have hf1Q : (1 : ℚ) ≤ (f.score : ℚ) := by exact_mod_cast hf1
  have hf5Q : (f.score : ℚ) ≤ 5 := by exact_mod_cast hf5
  have he1Q : (1 : ℚ) ≤ (e.score : ℚ) := by exact_mod_cast he1
  have he5Q : (e.score : ℚ) ≤ 5 := by exact_mod_cast he5
  have hc1Q : (1 : ℚ) ≤ (c.score : ℚ) := by exact_mod_cast hc1
  have hc5Q : (c.score : ℚ) ≤ 5 := by exact_mod_cast hc5
  have hk1Q : (1 : ℚ) ≤ (k.score : ℚ) := by exact_mod_cast hk1
  have hk5Q : (k.score : ℚ) ≤ 5 := by exact_mod_cast hk5
  have ht1Q : (1 : ℚ) ≤ (t.score : ℚ) := by exact_mod_cast ht1
  have ht5Q : (t.score : ℚ) ≤ 5 := by exact_mod_cast ht5
  refine ⟨⟨?_, ?_⟩, by norm_num [composite_score]⟩
  · have p1 : 0 ≤ ((f.score : ℚ) - 1) * f.weight :=
      mul_nonneg (by linarith) hfw
    have p2 : 0 ≤ ((e.score : ℚ) - 1) * e.weight :=
      mul_nonneg (by linarith) hew
    have p3 : 0 ≤ ((c.score : ℚ) - 1) * c.weight :=
      mul_nonneg (by linarith) hcw
    have p4 : 0 ≤ ((k.score : ℚ) - 1) * k.weight :=
      mul_nonneg (by linarith) hkw
    have p5 : 0 ≤ ((t.score : ℚ) - 1) * t.weight :=
      mul_nonneg (by linarith) htw
    rw [composite_score]
    nlinarith [p1, p2, p3, p4, p5]
  · have p1 : 0 ≤ (5 - (f.score : ℚ)) * f.weight :=
      mul_nonneg (by linarith) hfw
    have p2 : 0 ≤ (5 - (e.score : ℚ)) * e.weight :=
      mul_nonneg (by linarith) hew
    have p3 : 0 ≤ (5 - (c.score : ℚ)) * c.weight :=
      mul_nonneg (by linarith) hcw
    have p4 : 0 ≤ (5 - (k.score : ℚ)) * k.weight :=
      mul_nonneg (by linarith) hkw
    have p5 : 0 ≤ (5 - (t.score : ℚ)) * t.weight :=
      mul_nonneg (by linarith) htw
    rw [composite_score]
    nlinarith [p1, p2, p3, p4, p5]

/-- Witness for C9 with all categories at score 3 and the default weights. -/
theorem composite_score_bounds_witness :
    ((1 : ℤ) ≤ 3 ∧ (3 : ℤ) ≤ 5 ∧ (0 : ℚ) ≤ 1/4 ∧
      (1/4 : ℚ) + 1/4 + 1/5 + 3/20 + 3/20 = 1) ∧
    ((1 ≤ composite_score ⟨3, 1/4⟩ ⟨3, 1/4⟩ ⟨3, 1/5⟩ ⟨3, 3/20⟩ ⟨3, 3/20⟩ ∧
      composite_score ⟨3, 1/4⟩ ⟨3, 1/4⟩ ⟨3, 1/5⟩ ⟨3, 3/20⟩ ⟨3, 3/20⟩ ≤ 5) ∧
    composite_score ⟨3, 1/4⟩ ⟨3, 1/4⟩ ⟨3, 1/5⟩ ⟨3, 3/20⟩ ⟨3, 3/20⟩ = 3) :=
  ⟨⟨by norm_num, by norm_num, by norm_num, by norm_num⟩,
    composite_score_bounds ⟨3, 1/4⟩ ⟨3, 1/4⟩ ⟨3, 1/5⟩ ⟨3, 3/20⟩ ⟨3, 3/20⟩
      (by norm_num) (by norm_num) (by norm_num) (by norm_num) (by norm_num)
      (by norm_num) (by norm_num) (by norm_num) (by norm_num) (by norm_num)
      (by norm_num) (by norm_num) (by norm_num) (by norm_num) (by norm_num)
      (by norm_num)⟩
